import Mathlib

/-!
Verification of the Italo HALO file-transfer client (`queries.py`).

The four functions of the source are shallowly embedded as pure Lean
functions.  Network interaction is modelled explicitly:

* `get_credentials` takes the HTTP endpoint as a function from the one
  request it issues to a response; the outcome records the list of requests
  issued and whether the `aiohttp` client session block was exited.
* `get_client` is pure construction of a transport/client record, exactly
  mirroring the keyword arguments in the source.
* `search_images` takes the session as the trace of pages the server
  returns to successive `session.execute` calls, and logs the variable set
  passed to each `execute` call.
* `change_location` takes the session as the single mutation response the
  server returns.

Python runtime failures are represented by explicit error values:
`assertionError` for a failed `assert`, `indexError` for subscripting an
empty list (`[0]` on an empty list raises `IndexError`), and
`consistencyError` for the final-page `assert total_count == len(images)`
(an `AssertionError` raised at the completion check, the spec's
`ConsistencyError`).  The constructors `malformedRecordError` and
`mutationError` name the spec's error taxonomy; the code never produces
them, which is what the corrected claims below record.
-/

namespace Italo

/-- MAX_NODES = 100, the server limit per page (queries.py line 31). -/
def MAX_NODES : Int := 100

/-- One entry of a study's `ancestors` array, flattened: the string is the
`ancestor.name` field of the entry. -/
structure Study where
  ancestors : List String
  name : String
deriving DecidableEq, Repr

/-- One search result record (`edge.node.result`), fields as selected by the
ImageSearch query: `id`, `imageStudies` (each entry flattened to its `study`
object), `location`. -/
structure SearchResult where
  id : String
  imageStudies : List Study
  location : String
deriving DecidableEq, Repr

/-- The `pageInfo` object of an `imageSearch` response. -/
structure PageInfo where
  endCursor : Option String
  hasNextPage : Bool
deriving DecidableEq, Repr

/-- One `imageSearch` response page: `totalCount`, the `edges` array (each
edge flattened to its `node.result`; the per-edge `cursor` field is never
read by the code), and `pageInfo`. -/
structure Page where
  totalCount : Nat
  edges : List SearchResult
  pageInfo : PageInfo
deriving DecidableEq, Repr

/-- One entry of the accumulating `images` dictionary:
`{"location": ..., "studies": ...}` (queries.py line 164). -/
structure ImageRecord where
  location : String
  studies : String
deriving DecidableEq, Repr

/-- The `images` dictionary, keyed by record id, in Python dict insertion
order. -/
abbrev ImageIndex : Type := List (String × ImageRecord)

/-- Python dict assignment `m[k] = v`: overwrite in place if the key is
present, append otherwise. -/
def insertD : ImageIndex → String → ImageRecord → ImageIndex
  | [], k, v => [(k, v)]
  | p :: ps, k, v => if p.1 = k then (k, v) :: ps else p :: insertD ps k v

/-- Python dict lookup `m[k]` (first matching key; keys are unique by
construction). -/
def lookupD : ImageIndex → String → Option ImageRecord
  | [], _ => none
  | p :: ps, k => if p.1 = k then some p.2 else lookupD ps k

/-- Lines 160-163 of queries.py: start from the empty string, append
`"/" + parent.ancestor.name` for each entry of `reversed(study.ancestors)`,
then append `"/" + study.name`. -/
def studiesOf (study : Study) : String :=
  study.ancestors.reverse.foldl (fun s nm => s ++ "/" ++ nm) "" ++ "/" ++ study.name

/-- The `ImageRecord` derived from a search result record by lines 158-164:
study hierarchy of `imageStudies[0]` plus the record's location.  The empty
`imageStudies` case is junk; `processEdges` (the faithful translation)
raises `indexError` there instead of using this value. -/
def recordOf (r : SearchResult) : ImageRecord :=
  { location := r.location,
    studies := match r.imageStudies with
               | [] => ""
               | s :: _ => studiesOf s }

/-- Error values for the search path.  `assertionError` models a failed
argument `assert` (lines 115-117); `indexError` models Python's
`IndexError` from `result["imageStudies"][0]` on an empty list (line 158);
`consistencyError` models the failed completion check
`assert total_count == len(images)` (line 172); `noResponse` marks a trace
exhausted while the loop still demands a page (outside any claim's
hypotheses); `malformedRecordError` is the spec's name for an empty-study
failure and is never produced by the code. -/
inductive SearchError where
  | assertionError
  | indexError
  | consistencyError
  | noResponse
  | malformedRecordError
deriving DecidableEq, Repr

/-- The for-loop over `search["edges"]` (lines 155-164): for each record,
subscript `imageStudies[0]` (IndexError on an empty list), build the studies
path, and assign into the dictionary. -/
def processEdges : List SearchResult → ImageIndex → Except SearchError ImageIndex
  | [], images => .ok images
  | r :: rs, images =>
    match r.imageStudies with
    | [] => .error .indexError
    | s :: _ =>
      processEdges rs (insertD images r.id { location := r.location, studies := studiesOf s })

/-- Pure description of the dictionary produced by one page's edge loop when
no record is malformed. -/
def foldRecords (rs : List SearchResult) (images : ImageIndex) : ImageIndex :=
  rs.foldl (fun m r => insertD m r.id (recordOf r)) images

/-- Pure description of the dictionary accumulated over a whole trace of
pages. -/
def foldPages : List Page → ImageIndex → ImageIndex
  | [], images => images
  | p :: rest, images => foldPages rest (foldRecords p.edges images)

/-- All record ids occurring across a trace of pages, in page order. -/
def allIds : List Page → List String
  | [] => []
  | p :: rest => p.edges.map (fun r => r.id) ++ allIds rest

/-- The last record in a list carrying a given id, if any (the occurrence
whose dictionary write survives). -/
def lastWith (i : String) : List SearchResult → Option SearchResult
  | [] => none
  | r :: rs =>
    match lastWith i rs with
    | some r2 => some r2
    | none => if r.id = i then some r else none

/-- The variable dictionary passed to `session.execute` by the search loop:
`{"text": text, "first": first, "after": after}` (line 118, mutated at
line 168). -/
structure SearchQueryVars where
  text : String
  first : Int
  after : Option String
deriving DecidableEq, Repr

/-- Result of a `search_images` run: the returned dictionary (or the Python
exception), together with the variable sets passed to the successive
`session.execute` calls, in order. -/
structure SearchOutcome where
  result : Except SearchError ImageIndex
  queries : List SearchQueryVars

/-- The `while True` loop of lines 152-173, driven by the trace of pages the
server returns to successive `execute` calls.  Each iteration logs the
variables it executes with, processes the page's edges, and either continues
with `after := endCursor` (when `hasNextPage`) or performs the final
`assert total_count == len(images)` and returns.  An exhausted trace while
the loop demands another page yields `noResponse`. -/
def searchLoop : List Page → SearchQueryVars → ImageIndex → SearchOutcome
  | [], vars, _ => { result := .error .noResponse, queries := [vars] }
  | p :: rest, vars, images =>
    match processEdges p.edges images with
    | .error e => { result := .error e, queries := [vars] }
    | .ok images2 =>
      if p.pageInfo.hasNextPage then
        let o := searchLoop rest { vars with after := p.pageInfo.endCursor } images2
        { o with queries := vars :: o.queries }
      else
        if p.totalCount = images2.length then
          { result := .ok images2, queries := [vars] }
        else
          { result := .error .consistencyError, queries := [vars] }

/-- `search_images(session, text, first, after)` (lines 110-174).  The
session argument carries the trace of pages the server will return; `none`
models passing `session=None`.  `text = none` models `text=None` and the
empty string is falsy, so both fail the `assert text`; likewise
`first = none` / `first = some 0` fail the `assert first`.  In the source
`first` defaults to `MAX_NODES` and `after` to `None`. -/
def search_images (session : Option (List Page)) (text : Option String)
    (first : Option Int) (after : Option String) : SearchOutcome :=
  match session with
  | none => { result := .error .assertionError, queries := [] }
  | some pages =>
    match text with
    | none => { result := .error .assertionError, queries := [] }
    | some t =>
      if t = "" then { result := .error .assertionError, queries := [] }
      else
        match first with
        | none => { result := .error .assertionError, queries := [] }
        | some f =>
          if f = 0 then { result := .error .assertionError, queries := [] }
          else searchLoop pages { text := t, first := f, after := after } []

/-- The expected `execute` log for a trace of pages: one query per page, the
first carrying the caller's `after`, each later one carrying the previous
page's `endCursor`. -/
def expectedQueries (t : String) (f : Int) (a : Option String) : List Page → List SearchQueryVars
  | [] => []
  | p :: rest => { text := t, first := f, after := a } :: expectedQueries t f p.pageInfo.endCursor rest

/-- One entry of the mutation response's `mutated` array, flattened to its
`node` object: `{id, location}`. -/
structure MutatedNode where
  id : String
  location : String
deriving DecidableEq, Repr

/-- One entry of the mutation response's `failed` array: `{error}`. -/
structure FailedEntry where
  error : String
deriving DecidableEq, Repr

/-- The `changeImageLocation` field of a mutation response. -/
structure MutationResponse where
  mutated : List MutatedNode
  failed : List FailedEntry
deriving DecidableEq, Repr

/-- One value of the dictionary returned by `change_location`:
`{"location": ..., "error": ...}` where `error` is the whole `failed`
array (lines 103-106). -/
structure ChangeResult where
  location : String
  error : List FailedEntry
deriving DecidableEq, Repr

/-- Error values for the mutation path.  `assertionError` models a failed
argument `assert` (lines 79-81); `indexError` models Python's `IndexError`
from `response["changeImageLocation"]["mutated"][0]` on an empty array
(line 102); `mutationError` is the spec's name for that condition and is
never produced by the code. -/
inductive MutationErrorKind where
  | assertionError
  | indexError
  | mutationError
deriving DecidableEq, Repr

/-- `change_location(session, image_id, new_location)` (lines 75-107).  The
session argument carries the mutation response the server will return.
After the three truthiness asserts, the code subscripts `mutated[0]`
unconditionally and returns the one-entry dictionary keyed by the returned
node's id, whose value holds that node's location and the entire `failed`
array. -/
def change_location (session : Option MutationResponse) (image_id : Option String)
    (new_location : Option String) : Except MutationErrorKind (List (String × ChangeResult)) :=
  match session with
  | none => .error .assertionError
  | some response =>
    match image_id with
    | none => .error .assertionError
    | some iid =>
      if iid = "" then .error .assertionError
      else
        match new_location with
        | none => .error .assertionError
        | some nl =>
          if nl = "" then .error .assertionError
          else
            match response.mutated with
            | [] => .error .indexError
            | node :: _ => .ok [(node.id, { location := node.location, error := response.failed })]

/-- The client secrets dictionary (§3 of the spec): `server_name`,
`client_name`, `client_secret`, `client_scope`. -/
structure Secrets where
  server_name : String
  client_name : String
  client_secret : String
  client_scope : String
deriving DecidableEq, Repr

/-- The parsed JSON body of the token endpoint's response (`Credentials`);
the code only ever reads `access_token`. -/
structure Credentials where
  access_token : String
deriving DecidableEq, Repr

/-- The one request `get_credentials` issues: method, URL and the four
form-body fields (lines 54-62). -/
structure HttpRequest where
  method : String
  url : String
  client_id : String
  client_secret : String
  grant_type : String
  scope : String
deriving DecidableEq, Repr

/-- An HTTP response: status code and parsed JSON body. -/
structure HttpResponse where
  status : Nat
  body : Credentials
deriving DecidableEq, Repr

/-- Error value for the token exchange: `aiohttp`'s `raise_for_status=True`
raises on a response that is not ok (status at least 400); the spec names
this `CredentialError`. -/
inductive CredentialFailure where
  | credentialError
deriving DecidableEq, Repr

/-- Result of a `get_credentials` run: the returned body (or the raised
error), the requests issued in order, and whether the
`async with aiohttp.ClientSession()` block was exited (closing the
connection) before returning. -/
structure ExchangeOutcome where
  result : Except CredentialFailure Credentials
  requests : List HttpRequest
  sessionClosed : Bool

/-- The request built by lines 54-62: method `"Post"` (a POST request) to
`https://{server_name}/idsrv/connect/token` with form body
`client_id = client_name`, `client_secret`, `grant_type =
"client_credentials"`, `scope = client_scope`. -/
def credentialsRequest (secrets : Secrets) : HttpRequest :=
  { method := "Post",
    url := "https://" ++ secrets.server_name ++ "/idsrv/connect/token",
    client_id := secrets.client_name,
    client_secret := secrets.client_secret,
    grant_type := "client_credentials",
    scope := secrets.client_scope }

/-- `get_credentials(secrets)` (lines 52-66): issue the one token request
inside nested `async with` blocks (so the session is closed on every exit
path), raise for a non-ok status (`raise_for_status=True`; `aiohttp` treats
status below 400 as ok), and return the parsed JSON body verbatim. -/
def get_credentials (secrets : Secrets) (server : HttpRequest → HttpResponse) : ExchangeOutcome :=
  let req := credentialsRequest secrets
  let resp := server req
  { result := if resp.status < 400 then .ok resp.body else .error .credentialError,
    requests := [req],
    sessionClosed := true }

/-- The websockets transport constructed by lines 37-43, one field per
keyword argument (`connect_args` flattened to its single `max_size` entry;
`ssl_default_context` records that `ssl.create_default_context()` is
passed). -/
structure WebsocketsTransport where
  max_size : Nat
  url : String
  authorization : String
  ssl_default_context : Bool
  keep_alive_timeout : Nat
deriving DecidableEq, Repr

/-- The `gql.Client` constructed by lines 45-47: the transport plus
`fetch_schema_from_transport=True`. -/
structure SessionClient where
  transport : WebsocketsTransport
  fetch_schema_from_transport : Bool
deriving DecidableEq, Repr

/-- `get_client(secrets, credentials)` (lines 35-48): pure construction of
the transport and client records; no query is executed (the embedding takes
no server argument at all). -/
def get_client (secrets : Secrets) (credentials : Credentials) : SessionClient :=
  { transport :=
      { max_size := 100 * 1024 * 1024,
        url := "wss://" ++ secrets.server_name ++ "/graphql",
        authorization := "bearer " ++ credentials.access_token,
        ssl_default_context := true,
        keep_alive_timeout := 6 * 60 * 60 },
    fetch_schema_from_transport := true }

lemma mem_keys_insertD (m : ImageIndex) (k : String) (v : ImageRecord) (i : String) :
    i ∈ (insertD m k v).map Prod.fst ↔ i = k ∨ i ∈ m.map Prod.fst := by
  induction m with
  | nil => simp [insertD]
  | cons p ps ih =>
    by_cases h : p.1 = k
    · subst h
      simp [insertD]
    · simp only [insertD, if_neg h, List.map_cons, List.mem_cons, ih]
      tauto

lemma nodup_keys_insertD (m : ImageIndex) (k : String) (v : ImageRecord)
    (h : (m.map Prod.fst).Nodup) : ((insertD m k v).map Prod.fst).Nodup := by
  induction m with
  | nil => simp [insertD]
  | cons p ps ih =>
    simp only [List.map_cons, List.nodup_cons] at h
    by_cases hpk : p.1 = k
    · subst hpk
      simpa [insertD] using h
    · simp only [insertD, if_neg hpk, List.map_cons, List.nodup_cons]
      refine ⟨?_, ih h.2⟩
      rw [mem_keys_insertD]
      push_neg
      exact ⟨hpk, h.1⟩

lemma length_le_insertD (m : ImageIndex) (k : String) (v : ImageRecord) :
    m.length ≤ (insertD m k v).length := by
  induction m with
  | nil => simp [insertD]
  | cons p ps ih =>
    by_cases h : p.1 = k
    · simp [insertD, h]
    · simpa [insertD, h] using ih

lemma lookupD_insertD (m : ImageIndex) (k : String) (v : ImageRecord) (i : String) :
    lookupD (insertD m k v) i = if k = i then some v else lookupD m i := by
  induction m with
  | nil =>
    simp [insertD, lookupD]
  | cons p ps ih =>
    by_cases hpk : p.1 = k
    · subst hpk
      by_cases hki : p.1 = i <;> simp [insertD, lookupD, hki]
    · by_cases hpi : p.1 = i
      · subst hpi
        have : ¬ k = p.1 := fun h => hpk h.symm
        simp [insertD, lookupD, hpk, this]
      · simp [insertD, lookupD, hpk, hpi, ih]

lemma foldRecords_cons (r : SearchResult) (rs : List SearchResult) (m : ImageIndex) :
    foldRecords (r :: rs) m = foldRecords rs (insertD m r.id (recordOf r)) := rfl

lemma mem_keys_foldRecords (rs : List SearchResult) :
    ∀ (m : ImageIndex) (i : String),
      i ∈ (foldRecords rs m).map Prod.fst ↔
        i ∈ m.map Prod.fst ∨ i ∈ rs.map (fun r => r.id) := by
  induction rs with
  | nil => simp [foldRecords]
  | cons r rs ih =>
    intro m i
    rw [foldRecords_cons, ih, mem_keys_insertD]
    simp only [List.map_cons, List.mem_cons]
    tauto

lemma nodup_keys_foldRecords (rs : List SearchResult) :
    ∀ (m : ImageIndex), (m.map Prod.fst).Nodup → ((foldRecords rs m).map Prod.fst).Nodup := by
  induction rs with
  | nil => exact fun m h => h
  | cons r rs ih =>
    intro m h
    rw [foldRecords_cons]
    exact ih _ (nodup_keys_insertD m r.id (recordOf r) h)

lemma length_le_foldRecords (rs : List SearchResult) :
    ∀ (m : ImageIndex), m.length ≤ (foldRecords rs m).length := by
  induction rs with
  | nil => exact fun m => Nat.le_refl _
  | cons r rs ih =>
    intro m
    rw [foldRecords_cons]
    exact Nat.le_trans (length_le_insertD m r.id (recordOf r)) (ih _)

lemma lookupD_foldRecords (rs : List SearchResult) :
    ∀ (m : ImageIndex) (i : String),
      lookupD (foldRecords rs m) i =
        match lastWith i rs with
        | some r => some (recordOf r)
        | none => lookupD m i := by
  induction rs with
  | nil => intro m i; simp [foldRecords, lastWith]
  | cons r rs ih =>
    intro m i
    rw [foldRecords_cons, ih]
    cases hlast : lastWith i rs with
    | some r2 => simp [lastWith, hlast]
    | none =>
      by_cases hri : r.id = i
      · simp [lastWith, hlast, hri, lookupD_insertD]
      · have : ¬ i = r.id := fun h => hri h.symm
        simp [lastWith, hlast, hri, lookupD_insertD, this]

lemma processEdges_eq_ok (rs : List SearchResult) :
    ∀ (m : ImageIndex), (∀ r ∈ rs, r.imageStudies ≠ []) →
      processEdges rs m = .ok (foldRecords rs m) := by
  induction rs with
  | nil => intro m _; rfl
  | cons r rs ih =>
    intro m h
    have hr : r.imageStudies ≠ [] := h r (List.mem_cons_self r rs)
    cases hs : r.imageStudies with
    | nil => exact absurd hs hr
    | cons s tl =>
      have hrec : recordOf r = { location := r.location, studies := studiesOf s } := by
        simp [recordOf, hs]
      rw [foldRecords_cons, hrec]
      simp only [processEdges, hs]
      exact ih _ (fun r2 hr2 => h r2 (List.mem_cons_of_mem r hr2))

lemma mem_keys_foldPages (pages : List Page) :
    ∀ (m : ImageIndex) (i : String),
      i ∈ (foldPages pages m).map Prod.fst ↔ i ∈ m.map Prod.fst ∨ i ∈ allIds pages := by
  induction pages with
  | nil => simp [foldPages, allIds]
  | cons p rest ih =>
    intro m i
    simp only [foldPages]
    rw [ih, mem_keys_foldRecords]
    simp only [allIds, List.mem_append]
    tauto

lemma nodup_keys_foldPages (pages : List Page) :
    ∀ (m : ImageIndex), (m.map Prod.fst).Nodup → ((foldPages pages m).map Prod.fst).Nodup := by
  induction pages with
  | nil => exact fun _ h => h
  | cons p rest ih =>
    intro m h
    exact ih _ (nodup_keys_foldRecords p.edges m h)

lemma length_foldPages_nil (pages : List Page) :
    (foldPages pages []).length = (allIds pages).dedup.length := by
  have hnd : ((foldPages pages []).map Prod.fst).Nodup :=
    nodup_keys_foldPages pages [] (by simp)
  have hmem : ∀ i, i ∈ (foldPages pages []).map Prod.fst ↔ i ∈ allIds pages := by
    intro i
    rw [mem_keys_foldPages]
    simp
  have h1 : ((foldPages pages []).map Prod.fst).toFinset = (allIds pages).dedup.toFinset := by
    ext x
    simp only [List.mem_toFinset, List.mem_dedup]
    exact hmem x
  calc (foldPages pages []).length
      = ((foldPages pages []).map Prod.fst).length := by simp
    _ = ((foldPages pages []).map Prod.fst).toFinset.card :=
        (List.toFinset_card_of_nodup hnd).symm
    _ = (allIds pages).dedup.toFinset.card := by rw [h1]
    _ = (allIds pages).dedup.length := List.toFinset_card_of_nodup (List.nodup_dedup _)

lemma searchLoop_cons_ok (p : Page) (rest : List Page) (t : String) (f : Int) (a : Option String)
    (images images2 : ImageIndex) (hpe : processEdges p.edges images = .ok images2)
    (hnp : p.pageInfo.hasNextPage = true) :
    searchLoop (p :: rest) { text := t, first := f, after := a } images =
      { result := (searchLoop rest { text := t, first := f, after := p.pageInfo.endCursor } images2).result,
        queries := { text := t, first := f, after := a } ::
          (searchLoop rest { text := t, first := f, after := p.pageInfo.endCursor } images2).queries } := by
  simp [searchLoop, hpe, hnp]

lemma searchLoop_proper (t : String) (f : Int) :
    ∀ (pages : List Page) (plast : Page) (a : Option String) (images : ImageIndex),
      pages.getLast? = some plast →
      (∀ p ∈ pages, ∀ r ∈ p.edges, r.imageStudies ≠ []) →
      (∀ p ∈ pages.dropLast, p.pageInfo.hasNextPage = true) →
      plast.pageInfo.hasNextPage = false →
      searchLoop pages { text := t, first := f, after := a } images =
        { result := if plast.totalCount = (foldPages pages images).length
                    then .ok (foldPages pages images)
                    else .error .consistencyError,
          queries := expectedQueries t f a pages } := by
  intro pages
  induction pages with
  | nil =>
    intro plast a images hlast
    simp at hlast
  | cons p rest ih =>
    intro plast a images hlast hwf hmid hnx
    cases rest with
    | nil =>
      have hp : plast = p := by simpa using hlast.symm
      subst hp
      have hwfp : ∀ r ∈ plast.edges, r.imageStudies ≠ [] := hwf plast (by simp)
      by_cases hc : plast.totalCount = (foldRecords plast.edges images).length
      · simp [searchLoop, processEdges_eq_ok plast.edges images hwfp, hnx, hc,
          foldPages, expectedQueries]
      · simp [searchLoop, processEdges_eq_ok plast.edges images hwfp, hnx, hc,
          foldPages, expectedQueries]
    | cons q rest2 =>
      have hnp : p.pageInfo.hasNextPage = true := by
        apply hmid p
        rw [List.dropLast_cons₂]
        exact List.mem_cons_self _ _
      have hlast2 : (q :: rest2).getLast? = some plast := by
        rw [← List.getLast?_cons_cons (a := p)]
        exact hlast
      have hwf2 : ∀ x ∈ q :: rest2, ∀ r ∈ x.edges, r.imageStudies ≠ [] :=
        fun x hx => hwf x (List.mem_cons_of_mem p hx)
      have hmid2 : ∀ x ∈ (q :: rest2).dropLast, x.pageInfo.hasNextPage = true := by
        intro x hx
        apply hmid x
        rw [List.dropLast_cons₂]
        exact List.mem_cons_of_mem p hx
      have hrec := ih plast p.pageInfo.endCursor (foldRecords p.edges images)
        hlast2 hwf2 hmid2 hnx
      have hwfp : ∀ r ∈ p.edges, r.imageStudies ≠ [] := hwf p (by simp)
      rw [searchLoop_cons_ok p (q :: rest2) t f a images (foldRecords p.edges images)
          (processEdges_eq_ok p.edges images hwfp) hnp, hrec]
      simp [foldPages, expectedQueries]

/-- Claim C4: processing a pair of pages that repeat a record id (the
simulated duplicate page) does not crash — both page loops return a
dictionary — the index after both pages is at least as large as after the
first, and the entry for the repeated id holds the location and studies of
the last occurrence processed (last write wins).  `lastWith i p2.edges` is
the last record with id `i` on the second page, which is the last
occurrence processed overall. -/
theorem c4_duplicate_page_safe (p1 p2 : Page)
    (h1 : ∀ r ∈ p1.edges, r.imageStudies ≠ []) (h2 : ∀ r ∈ p2.edges, r.imageStudies ≠ [])
    (i : String) (r1 : SearchResult) (hr1 : r1 ∈ p1.edges) (hid1 : r1.id = i)
    (r2 : SearchResult) (hlast2 : lastWith i p2.edges = some r2) :
    processEdges p1.edges [] = .ok (foldRecords p1.edges []) ∧
    processEdges p2.edges (foldRecords p1.edges []) =
      .ok (foldRecords p2.edges (foldRecords p1.edges [])) ∧
    (foldRecords p1.edges []).length ≤ (foldRecords p2.edges (foldRecords p1.edges [])).length ∧
    lookupD (foldRecords p2.edges (foldRecords p1.edges [])) i = some (recordOf r2) := by
  refine ⟨processEdges_eq_ok p1.edges [] h1, processEdges_eq_ok p2.edges _ h2,
    length_le_foldRecords p2.edges _, ?_⟩
  rw [lookupD_foldRecords, hlast2]

/-- Witness for claim C4: the page holding records `a` (id `"i1"`) and `b`
(id `"i2"`) processed twice; the repeated id `"i1"` maps to the record
derived from its occurrence on the second (duplicate) page. -/
theorem c4_duplicate_page_safe_witness :
    processEdges
        [{ id := "i1", imageStudies := [{ ancestors := [], name := "S" }], location := "/a" },
         { id := "i2", imageStudies := [{ ancestors := [], name := "S" }], location := "/b" }] [] =
      .ok (foldRecords
        [{ id := "i1", imageStudies := [{ ancestors := [], name := "S" }], location := "/a" },
         { id := "i2", imageStudies := [{ ancestors := [], name := "S" }], location := "/b" }] []) ∧
    lookupD
      (foldRecords
        [{ id := "i1", imageStudies := [{ ancestors := [], name := "S" }], location := "/a" },
         { id := "i2", imageStudies := [{ ancestors := [], name := "S" }], location := "/b" }]
        (foldRecords
          [{ id := "i1", imageStudies := [{ ancestors := [], name := "S" }], location := "/a" },
           { id := "i2", imageStudies := [{ ancestors := [], name := "S" }], location := "/b" }]
          [])) "i1" =
      some (recordOf
        { id := "i1", imageStudies := [{ ancestors := [], name := "S" }], location := "/a" }) := by
  have h := c4_duplicate_page_safe
    { totalCount := 2,
      edges :=
        [{ id := "i1", imageStudies := [{ ancestors := [], name := "S" }], location := "/a" },
         { id := "i2", imageStudies := [{ ancestors := [], name := "S" }], location := "/b" }],
      pageInfo := { endCursor := some "c", hasNextPage := true } }
    { totalCount := 2,
      edges :=
        [{ id := "i1", imageStudies := [{ ancestors := [], name := "S" }], location := "/a" },
         { id := "i2", imageStudies := [{ ancestors := [], name := "S" }], location := "/b" }],
      pageInfo := { endCursor := some "c", hasNextPage := false } }
    (by intro r hr; fin_cases hr <;> simp)
    (by intro r hr; fin_cases hr <;> simp)
    "i1"
    { id := "i1", imageStudies := [{ ancestors := [], name := "S" }], location := "/a" }
    (by simp) rfl
    { id := "i1", imageStudies := [{ ancestors := [], name := "S" }], location := "/a" }
    (by simp [lastWith])
  exact ⟨h.1, h.2.2.2⟩

/-- Claim C1: on a proper trace of pages (at least one page, at most 100
edges each, every non-final page with `hasNextPage` and the final page
without, every record carrying a study, and the final page's `totalCount`
naming the number of distinct ids), `search_images` terminates with the
accumulated dictionary, whose keys are exactly the record ids of the trace
with no duplicates and whose size is the number N of distinct ids, and the
`execute` log shows one query per page, each query after the first carrying
the previous page's `endCursor` as `after`. -/
theorem c1_pagination_drains_trace (pages : List Page) (plast : Page) (t : String) (f : Int)
    (hlast : pages.getLast? = some plast)
    (hsize : ∀ p ∈ pages, p.edges.length ≤ 100)
    (hwf : ∀ p ∈ pages, ∀ r ∈ p.edges, r.imageStudies ≠ [])
    (hmid : ∀ p ∈ pages.dropLast, p.pageInfo.hasNextPage = true)
    (hnx : plast.pageInfo.hasNextPage = false)
    (ht : t ≠ "") (hf : f ≠ 0)
    (htot : plast.totalCount = (allIds pages).dedup.length) :
    (search_images (some pages) (some t) (some f) none).result = .ok (foldPages pages []) ∧
    (∀ i, i ∈ (foldPages pages []).map Prod.fst ↔ i ∈ allIds pages) ∧
    ((foldPages pages []).map Prod.fst).Nodup ∧
    (foldPages pages []).length = (allIds pages).dedup.length ∧
    (search_images (some pages) (some t) (some f) none).queries =
      expectedQueries t f none pages := by
  have hrun := searchLoop_proper t f pages plast none [] hlast hwf hmid hnx
  have hs : search_images (some pages) (some t) (some f) none =
      searchLoop pages { text := t, first := f, after := none } [] := by
    simp [search_images, ht, hf]
  have hlen := length_foldPages_nil pages
  refine ⟨?_, ?_, nodup_keys_foldPages pages [] (by simp), hlen, ?_⟩
  · rw [hs, hrun]
    have hcond : plast.totalCount = (foldPages pages []).length := by
      rw [htot, hlen]
    simp [hcond]
  · intro i
    rw [mem_keys_foldPages]
    simp
  · rw [hs, hrun]

/-- Witness for claim C1: a two-page trace (ids `"a"`, `"b"` then `"c"`)
with `totalCount = 3` on the final page yields the three-entry index and
the two-query log threading the first page's cursor. -/
theorem c1_pagination_drains_trace_witness :
    (search_images
        (some [{ totalCount := 0,
                 edges := [{ id := "a", imageStudies := [{ ancestors := [], name := "S" }],
                             location := "/a" },
                           { id := "b", imageStudies := [{ ancestors := [], name := "S" }],
                             location := "/b" }],
                 pageInfo := { endCursor := some "cur1", hasNextPage := true } },
               { totalCount := 3,
                 edges := [{ id := "c", imageStudies := [{ ancestors := [], name := "S" }],
                             location := "/c" }],
                 pageInfo := { endCursor := some "cur2", hasNextPage := false } }])
        (some "halo") (some 100) none).result =
      .ok (foldPages
        [{ totalCount := 0,
           edges := [{ id := "a", imageStudies := [{ ancestors := [], name := "S" }],
                       location := "/a" },
                     { id := "b", imageStudies := [{ ancestors := [], name := "S" }],
                       location := "/b" }],
           pageInfo := { endCursor := some "cur1", hasNextPage := true } },
         { totalCount := 3,
           edges := [{ id := "c", imageStudies := [{ ancestors := [], name := "S" }],
                       location := "/c" }],
           pageInfo := { endCursor := some "cur2", hasNextPage := false } }] []) ∧
    (search_images
        (some [{ totalCount := 0,
                 edges := [{ id := "a", imageStudies := [{ ancestors := [], name := "S" }],
                             location := "/a" },
                           { id := "b", imageStudies := [{ ancestors := [], name := "S" }],
                             location := "/b" }],
                 pageInfo := { endCursor := some "cur1", hasNextPage := true } },
               { totalCount := 3,
                 edges := [{ id := "c", imageStudies := [{ ancestors := [], name := "S" }],
                             location := "/c" }],
                 pageInfo := { endCursor := some "cur2", hasNextPage := false } }])
        (some "halo") (some 100) none).queries =
      [{ text := "halo", first := 100, after := none },
       { text := "halo", first := 100, after := some "cur1" }] := by
  have h := c1_pagination_drains_trace
    [{ totalCount := 0,
       edges := [{ id := "a", imageStudies := [{ ancestors := [], name := "S" }],
                   location := "/a" },
                 { id := "b", imageStudies := [{ ancestors := [], name := "S" }],
                   location := "/b" }],
       pageInfo := { endCursor := some "cur1", hasNextPage := true } },
     { totalCount := 3,
       edges := [{ id := "c", imageStudies := [{ ancestors := [], name := "S" }],
                   location := "/c" }],
       pageInfo := { endCursor := some "cur2", hasNextPage := false } }]
    { totalCount := 3,
      edges := [{ id := "c", imageStudies := [{ ancestors := [], name := "S" }],
                  location := "/c" }],
      pageInfo := { endCursor := some "cur2", hasNextPage := false } }
    "halo" 100 rfl
    (by intro p hp; fin_cases hp <;> simp)
    (by intro p hp; fin_cases hp <;> (intro r hr; fin_cases hr <;> simp))
    (by intro p hp; fin_cases hp <;> simp)
    rfl (by decide) (by decide) (by decide)
  refine ⟨h.1, ?_⟩
  rw [h.2.2.2.2]
  rfl

/-- Claim C2: for every trace walked to termination (proper pagination
flags, well-formed records), when the final page's `totalCount` differs
from the number of accumulated entries the search fails with the
consistency error (the `assert total_count == len(images)`) and returns no
index, and when they agree the accumulated index is returned. -/
theorem c2_total_count_reconciliation (pages : List Page) (plast : Page) (t : String)
    (f : Int) (a : Option String)
    (hlast : pages.getLast? = some plast)
    (hwf : ∀ p ∈ pages, ∀ r ∈ p.edges, r.imageStudies ≠ [])
    (hmid : ∀ p ∈ pages.dropLast, p.pageInfo.hasNextPage = true)
    (hnx : plast.pageInfo.hasNextPage = false)
    (ht : t ≠ "") (hf : f ≠ 0) :
    (plast.totalCount ≠ (foldPages pages []).length →
      (search_images (some pages) (some t) (some f) a).result = .error .consistencyError) ∧
    (plast.totalCount = (foldPages pages []).length →
      (search_images (some pages) (some t) (some f) a).result = .ok (foldPages pages [])) := by
  have hrun := searchLoop_proper t f pages plast a [] hlast hwf hmid hnx
  have hs : search_images (some pages) (some t) (some f) a =
      searchLoop pages { text := t, first := f, after := a } [] := by
    simp [search_images, ht, hf]
  constructor
  · intro hne
    rw [hs, hrun]
    simp [hne]
  · intro heq
    rw [hs, hrun]
    simp [heq]

/-- Witness for claim C2: a one-page trace with one record but
`totalCount = 2` fails with the consistency error; the same trace with
`totalCount = 1` returns the one-entry index. -/
theorem c2_total_count_reconciliation_witness :
    (search_images
        (some [{ totalCount := 2,
                 edges := [{ id := "a", imageStudies := [{ ancestors := [], name := "S" }],
                             location := "/a" }],
                 pageInfo := { endCursor := none, hasNextPage := false } }])
        (some "q") (some 100) none).result = .error .consistencyError ∧
    (search_images
        (some [{ totalCount := 1,
                 edges := [{ id := "a", imageStudies := [{ ancestors := [], name := "S" }],
                             location := "/a" }],
                 pageInfo := { endCursor := none, hasNextPage := false } }])
        (some "q") (some 100) none).result =
      .ok (foldPages
        [{ totalCount := 1,
           edges := [{ id := "a", imageStudies := [{ ancestors := [], name := "S" }],
                       location := "/a" }],
           pageInfo := { endCursor := none, hasNextPage := false } }] []) := by
  constructor
  · exact (c2_total_count_reconciliation
      [{ totalCount := 2,
         edges := [{ id := "a", imageStudies := [{ ancestors := [], name := "S" }],
                     location := "/a" }],
         pageInfo := { endCursor := none, hasNextPage := false } }]
      { totalCount := 2,
        edges := [{ id := "a", imageStudies := [{ ancestors := [], name := "S" }],
                    location := "/a" }],
        pageInfo := { endCursor := none, hasNextPage := false } }
      "q" 100 none rfl
      (by intro p hp; fin_cases hp <;> (intro r hr; fin_cases hr <;> simp))
      (by intro p hp; fin_cases hp)
      rfl (by decide) (by decide)).1 (by decide)
  · exact (c2_total_count_reconciliation
      [{ totalCount := 1,
         edges := [{ id := "a", imageStudies := [{ ancestors := [], name := "S" }],
                     location := "/a" }],
         pageInfo := { endCursor := none, hasNextPage := false } }]
      { totalCount := 1,
        edges := [{ id := "a", imageStudies := [{ ancestors := [], name := "S" }],
                    location := "/a" }],
        pageInfo := { endCursor := none, hasNextPage := false } }
      "q" 100 none rfl
      (by intro p hp; fin_cases hp <;> (intro r hr; fin_cases hr <;> simp))
      (by intro p hp; fin_cases hp)
      rfl (by decide) (by decide)).2 (by decide)

lemma processEdges_error_of_empty (rs : List SearchResult) :
    ∀ (m : ImageIndex), (∃ r ∈ rs, r.imageStudies = []) →
      processEdges rs m = .error .indexError := by
  induction rs with
  | nil =>
    intro m h
    simp at h
  | cons r rs ih =>
    intro m h
    cases hs : r.imageStudies with
    | nil => simp [processEdges, hs]
    | cons s tl =>
      obtain ⟨r2, hr2, hemp⟩ := h
      rcases List.mem_cons.mp hr2 with heq | hmem
      · subst heq
        rw [hs] at hemp
        exact absurd hemp (by simp)
      · simp only [processEdges, hs]
        exact ih _ ⟨r2, hmem, hemp⟩

/-- Claim C7 as stated is false on the code: at a concrete page whose only
record has an empty `imageStudies` list, the search fails with the
index-out-of-range fault from `imageStudies[0]`, which is not the
`MalformedRecordError` the claim asserts. -/
theorem c7_counterexample :
    (search_images
        (some [{ totalCount := 1,
                 edges := [{ id := "id1", imageStudies := [], location := "/loc" }],
                 pageInfo := { endCursor := none, hasNextPage := false } }])
        (some "t") (some 100) none).result = .error .indexError ∧
    SearchError.indexError ≠ SearchError.malformedRecordError := by
  refine ⟨?_, by decide⟩
  rfl

/-- Claim C7 (amended): for every search-result record with an empty
`imageStudies` list on the first returned page, the search fails with an
index-out-of-range fault (Python `IndexError` from subscripting
`imageStudies[0]`); no dedicated `MalformedRecordError` is raised. -/
theorem c7_empty_studies_faults (p : Page) (rest : List Page) (t : String) (f : Int)
    (a : Option String) (ht : t ≠ "") (hf : f ≠ 0)
    (r : SearchResult) (hr : r ∈ p.edges) (hempty : r.imageStudies = []) :
    (search_images (some (p :: rest)) (some t) (some f) a).result = .error .indexError := by
  have hs : search_images (some (p :: rest)) (some t) (some f) a =
      searchLoop (p :: rest) { text := t, first := f, after := a } [] := by
    simp [search_images, ht, hf]
  rw [hs]
  simp [searchLoop, processEdges_error_of_empty p.edges [] ⟨r, hr, hempty⟩]

/-- Witness for claim C7's amended theorem at a concrete malformed page. -/
theorem c7_empty_studies_faults_witness :
    (search_images
        (some [{ totalCount := 1,
                 edges := [{ id := "id2", imageStudies := [], location := "/other" }],
                 pageInfo := { endCursor := none, hasNextPage := false } }])
        (some "x") (some 100) none).result = .error .indexError :=
  c7_empty_studies_faults
    { totalCount := 1,
      edges := [{ id := "id2", imageStudies := [], location := "/other" }],
      pageInfo := { endCursor := none, hasNextPage := false } }
    [] "x" 100 none (by decide) (by decide)
    { id := "id2", imageStudies := [], location := "/other" }
    (by simp) rfl

lemma searchLoop_queries_head (pages : List Page) (vars : SearchQueryVars) (m : ImageIndex) :
    (searchLoop pages vars m).queries.head? = some vars := by
  cases pages with
  | nil => rfl
  | cons p rest =>
    cases hpe : processEdges p.edges m with
    | error e => simp [searchLoop, hpe]
    | ok m2 =>
      by_cases h : p.pageInfo.hasNextPage = true
      · simp [searchLoop, hpe, h]
      · by_cases hc : p.totalCount = m2.length
        · simp [searchLoop, hpe, h, hc]
        · simp [searchLoop, hpe, h, hc]

lemma searchLoop_queries_vars (pages : List Page) :
    ∀ (vars : SearchQueryVars) (m : ImageIndex) (q : SearchQueryVars),
      q ∈ (searchLoop pages vars m).queries → q.text = vars.text ∧ q.first = vars.first := by
  induction pages with
  | nil =>
    intro vars m q hq
    simp [searchLoop] at hq
    subst hq
    exact ⟨rfl, rfl⟩
  | cons p rest ih =>
    intro vars m q hq
    cases hpe : processEdges p.edges m with
    | error e =>
      simp [searchLoop, hpe] at hq
      subst hq
      exact ⟨rfl, rfl⟩
    | ok m2 =>
      by_cases h : p.pageInfo.hasNextPage = true
      · simp only [searchLoop, hpe, h, if_true] at hq
        rcases List.mem_cons.mp hq with heq | hmem
        · subst heq
          exact ⟨rfl, rfl⟩
        · exact ih { text := vars.text, first := vars.first, after := p.pageInfo.endCursor }
            m2 q hmem
      · by_cases hc : p.totalCount = m2.length
        · simp [searchLoop, hpe, h, hc] at hq
          subst hq
          exact ⟨rfl, rfl⟩
        · simp [searchLoop, hpe, h, hc] at hq
          subst hq
          exact ⟨rfl, rfl⟩

/-- Claim C10: `search_images` validates its arguments only by truthiness:
a `None` session, a `None` or empty text, and a `None` or zero page size
each fail the corresponding `assert`; every other page size — above the
100 ceiling or negative — is accepted and forwarded to the server
unchanged in every executed query, with no range check against [1, 100]. -/
theorem c10_truthiness_validation :
    (∀ (text : Option String) (first : Option Int) (after : Option String),
      search_images none text first after =
        { result := .error .assertionError, queries := [] }) ∧
    (∀ (pages : List Page) (first : Option Int) (after : Option String),
      search_images (some pages) none first after =
        { result := .error .assertionError, queries := [] } ∧
      search_images (some pages) (some "") first after =
        { result := .error .assertionError, queries := [] }) ∧
    (∀ (pages : List Page) (t : String) (after : Option String), t ≠ "" →
      search_images (some pages) (some t) none after =
        { result := .error .assertionError, queries := [] } ∧
      search_images (some pages) (some t) (some 0) after =
        { result := .error .assertionError, queries := [] }) ∧
    (∀ (pages : List Page) (t : String) (f : Int) (after : Option String), t ≠ "" → f ≠ 0 →
      (search_images (some pages) (some t) (some f) after).queries.head? =
        some { text := t, first := f, after := after } ∧
      ∀ q ∈ (search_images (some pages) (some t) (some f) after).queries,
        q.text = t ∧ q.first = f) := by
  refine ⟨fun _ _ _ => rfl, fun _ _ _ => ⟨rfl, by simp [search_images]⟩, ?_, ?_⟩
  · intro pages t after ht
    exact ⟨by simp [search_images, ht], by simp [search_images, ht]⟩
  · intro pages t f after ht hf
    have hs : search_images (some pages) (some t) (some f) after =
        searchLoop pages { text := t, first := f, after := after } [] := by
      simp [search_images, ht, hf]
    rw [hs]
    exact ⟨searchLoop_queries_head pages _ [],
      fun q hq => searchLoop_queries_vars pages _ [] q hq⟩

/-- Witness for claim C10: the `None` session and zero page size fail the
asserts, while page sizes 101 (above the ceiling) and -5 (negative) are
forwarded unchanged in the first executed query. -/
theorem c10_truthiness_validation_witness :
    search_images none (some "x") (some 100) none =
      { result := .error .assertionError, queries := [] } ∧
    search_images (some []) (some "x") (some 0) none =
      { result := .error .assertionError, queries := [] } ∧
    (search_images
        (some [{ totalCount := 0, edges := [],
                 pageInfo := { endCursor := none, hasNextPage := false } }])
        (some "x") (some 101) none).queries.head? =
      some { text := "x", first := 101, after := none } ∧
    (search_images
        (some [{ totalCount := 0, edges := [],
                 pageInfo := { endCursor := none, hasNextPage := false } }])
        (some "x") (some (-5)) none).queries.head? =
      some { text := "x", first := -5, after := none } :=
  ⟨c10_truthiness_validation.1 (some "x") (some 100) none,
   (c10_truthiness_validation.2.2.1 [] "x" none (by decide)).2,
   (c10_truthiness_validation.2.2.2
     [{ totalCount := 0, edges := [],
        pageInfo := { endCursor := none, hasNextPage := false } }]
     "x" 101 none (by decide) (by decide)).1,
   (c10_truthiness_validation.2.2.2
     [{ totalCount := 0, edges := [],
        pageInfo := { endCursor := none, hasNextPage := false } }]
     "x" (-5) none (by decide) (by decide)).1⟩

/-- Claim C3: for a search-result record whose ancestor chain, outermost
ancestor first, is `[A, B]` and whose study name is `C`, the derived
`studies` string is `"/A/B/C"`; with zero ancestors it is `"/C"`.  The code
walks `reversed(study.ancestors)`, treating the raw server array as
innermost-first, so the outermost-first chain `[A, B]` is the record whose
raw `ancestors` field reversed equals `[A, B]`.  The third conjunct states
the same fact through the edge-processing loop itself. -/
theorem c3_studies_hierarchy :
    (∀ (anc : List String) (A B C : String), anc.reverse = [A, B] →
      studiesOf { ancestors := anc, name := C } = "/" ++ A ++ "/" ++ B ++ "/" ++ C) ∧
    (∀ (C : String), studiesOf { ancestors := [], name := C } = "/" ++ C) ∧
    (∀ (anc : List String) (A B C i loc : String), anc.reverse = [A, B] →
      processEdges [{ id := i, imageStudies := [{ ancestors := anc, name := C }], location := loc }] [] =
        .ok [(i, { location := loc, studies := "/" ++ A ++ "/" ++ B ++ "/" ++ C })]) := by
  refine ⟨?_, ?_, ?_⟩
  · intro anc A B C h
    simp [studiesOf, h]
  · intro C
    simp [studiesOf]
  · intro anc A B C i loc h
    simp [processEdges, insertD, studiesOf, h]

/-- Witnesses for claim C3 at the concrete record with raw ancestors
`["B", "A"]` (outermost-first chain `["A", "B"]`) and study name `"C"`. -/
theorem c3_studies_hierarchy_witness :
    studiesOf { ancestors := ["B", "A"], name := "C" } = "/" ++ "A" ++ "/" ++ "B" ++ "/" ++ "C" ∧
    studiesOf { ancestors := [], name := "C" } = "/" ++ "C" :=
  ⟨c3_studies_hierarchy.1 ["B", "A"] "A" "B" "C" (by decide),
   c3_studies_hierarchy.2.1 "C"⟩

/-- Claim C5 as stated is false on the code: for the mutation response with
an empty `mutated` array, `change_location` fails with the
index-out-of-range fault from `mutated[0]`, which is not the
`MutationError` the claim asserts. -/
theorem c5_counterexample :
    change_location (some { mutated := [], failed := [] }) (some "image1") (some "/new") =
      .error .indexError ∧
    (Except.error MutationErrorKind.indexError :
        Except MutationErrorKind (List (String × ChangeResult))) ≠
      .error .mutationError := by
  refine ⟨rfl, ?_⟩
  intro h
  exact absurd (Except.error.inj h) (by decide)

/-- Claim C5 (amended): for every mutation response whose `mutated` array is
empty, `change_location` fails with an index-out-of-range fault (Python
`IndexError` from subscripting `mutated[0]`); no dedicated `MutationError`
is raised. -/
theorem c5_empty_mutated_faults (failed : List FailedEntry) (iid nl : String)
    (hi : iid ≠ "") (hn : nl ≠ "") :
    change_location (some { mutated := [], failed := failed }) (some iid) (some nl) =
      .error .indexError := by
  simp [change_location, hi, hn]

/-- Witness for claim C5's amended theorem at a concrete response. -/
theorem c5_empty_mutated_faults_witness :
    change_location (some { mutated := [], failed := [{ error := "e" }] }) (some "a") (some "b") =
      .error .indexError :=
  c5_empty_mutated_faults [{ error := "e" }] "a" "b" (by decide) (by decide)

/-- Claim C6: for every mutation response with a non-empty `mutated` array,
`change_location` returns the one-entry map keyed by the node id the server
returned (independent of the requested image id), holding that node's
location and the entire `failed` array verbatim as `error`. -/
theorem c6_mutation_success (node : MutatedNode) (rest : List MutatedNode)
    (failed : List FailedEntry) (iid nl : String) (hi : iid ≠ "") (hn : nl ≠ "") :
    change_location (some { mutated := node :: rest, failed := failed }) (some iid) (some nl) =
      .ok [(node.id, { location := node.location, error := failed })] := by
  simp [change_location, hi, hn]

/-- Witness for claim C6: the response
`mutated = [[node 'x' at '/new']], failed = []` yields
`[('x', location '/new', error [])]`; the requested id is `"y"`, showing the
key is the server-returned node id. -/
theorem c6_mutation_success_witness :
    change_location (some { mutated := [{ id := "x", location := "/new" }], failed := [] })
        (some "y") (some "/new") =
      .ok [("x", { location := "/new", error := [] })] :=
  c6_mutation_success { id := "x", location := "/new" } [] [] "y" "/new" (by decide) (by decide)

/-- Claim C9: the session factory builds a transport whose URL is
`wss://{server_name}/graphql`, whose authorization header is exactly
`"bearer "` followed by the access token, whose maximum inbound message
size is 100 MiB, and whose keep-alive ceiling is 21600 seconds, wrapped in
a client with `fetch_schema_from_transport` set; the construction is a pure
function of its two arguments, so it performs no query. -/
theorem c9_session_factory (secrets : Secrets) (credentials : Credentials) :
    (get_client secrets credentials).transport.url = "wss://" ++ secrets.server_name ++ "/graphql" ∧
    (get_client secrets credentials).transport.authorization =
      "bearer " ++ credentials.access_token ∧
    (get_client secrets credentials).transport.max_size = 100 * 1024 * 1024 ∧
    (get_client secrets credentials).transport.keep_alive_timeout = 21600 ∧
    (get_client secrets credentials).fetch_schema_from_transport = true :=
  ⟨rfl, rfl, rfl, rfl, rfl⟩

/-- Claim C8: the credential exchange issues exactly one POST-style request
to `https://{server_name}/idsrv/connect/token` with the four form-body
fields, closes the scoped connection before returning, fails with the
credential error on a non-ok HTTP status (at least 400, the
`raise_for_status` threshold), and on success returns the parsed response
body verbatim. -/
theorem c8_credential_exchange (secrets : Secrets) (server : HttpRequest → HttpResponse) :
    (get_credentials secrets server).requests = [credentialsRequest secrets] ∧
    (credentialsRequest secrets).method = "Post" ∧
    (credentialsRequest secrets).url = "https://" ++ secrets.server_name ++ "/idsrv/connect/token" ∧
    (credentialsRequest secrets).client_id = secrets.client_name ∧
    (credentialsRequest secrets).client_secret = secrets.client_secret ∧
    (credentialsRequest secrets).grant_type = "client_credentials" ∧
    (credentialsRequest secrets).scope = secrets.client_scope ∧
    (get_credentials secrets server).sessionClosed = true ∧
    ((server (credentialsRequest secrets)).status < 400 →
      (get_credentials secrets server).result = .ok (server (credentialsRequest secrets)).body) ∧
    (400 ≤ (server (credentialsRequest secrets)).status →
      (get_credentials secrets server).result = .error .credentialError) := by
  refine ⟨rfl, rfl, rfl, rfl, rfl, rfl, rfl, rfl, ?_, ?_⟩
  · intro h
    simp [get_credentials, h]
  · intro h
    simp [get_credentials, Nat.not_lt.mpr h]

/-- Witness for claim C8: a 200 response yields the body verbatim and a 401
response yields the credential error. -/
theorem c8_credential_exchange_witness :
    (get_credentials
        { server_name := "halo.test", client_name := "cn", client_secret := "cs",
          client_scope := "sc" }
        (fun _ => { status := 200, body := { access_token := "abc" } })).result =
      .ok { access_token := "abc" } ∧
    (get_credentials
        { server_name := "halo.test", client_name := "cn", client_secret := "cs",
          client_scope := "sc" }
        (fun _ => { status := 401, body := { access_token := "" } })).result =
      .error .credentialError := by
  constructor
  · exact (c8_credential_exchange _ _).2.2.2.2.2.2.2.2.1 (by decide)
  · exact (c8_credential_exchange _ _).2.2.2.2.2.2.2.2.2 (by decide)

end Italo
